import Mathlib

/-
Verification of the persistence-layer specification of the
sqlalchemy-learning repository against its source.

The repository declares its data model in src/models.py (entities,
primary keys, foreign-key on-delete policies, the enumerated gender
field with its external wire representation) and exercises it through
the CRUD demonstrations in src/01_base_crud.py.  The runtime semantics
of the CRUD operations (optimistic-concurrency update, cascade/restrict
delete, uniqueness checks) are provided by the ORM and the database
engine, configured by those declarations; they are modelled here from
the specification, while every declaration-derived datum (which fields
form each key, which relations are CASCADE versus RESTRICT, the enum
mapping) is translated from src/models.py.
-/

set_option autoImplicit false

namespace SqlaLearning

/-- Error taxonomy of the specification (§7): shape violations,
primary-key collisions, optimistic-concurrency conflicts, RESTRICT
violations (carrying the blocking entity and key), and absent keys. -/
inductive DbError where
  | ShapeError
  | UniquenessError
  | ConflictError
  | ReferentialIntegrityError (entity : String) (key : Nat)
  | NotFoundError
  deriving DecidableEq, Repr

/-- The Gender enum of src/models.py: members MALE and FEMALE with
external string values "male" and "female". -/
inductive Gender where
  | MALE
  | FEMALE
  deriving DecidableEq, Repr

/-- The external representation of each member (the member value in
src/models.py line 26-27), which values_callable selects for storage. -/
def Gender.value : Gender → String
  | .MALE => "male"
  | .FEMALE => "female"

/-- The internal member name of each member (MALE / FEMALE). -/
def Gender.memberName : Gender → String
  | .MALE => "MALE"
  | .FEMALE => "FEMALE"

/-- The closed set of external representations declared by
values_callable in src/models.py lines 59-67. -/
def genderValues : List String := [Gender.MALE.value, Gender.FEMALE.value]

/-- Encoding an internal value for storage: values_callable persists the
member value, i.e. the external string representation. -/
def encodeGender (g : Gender) : String := g.value

/-- Modelled from the spec: decoding a stored external representation
back to the internal value; a representation outside the declared set is
a fatal shape violation, never a silent default (§4.1).  The decoding
itself is performed by the ORM layer, absent from src/. -/
def decodeGender (s : String) : Except DbError Gender :=
  if s = Gender.MALE.value then .ok .MALE
  else if s = Gender.FEMALE.value then .ok .FEMALE
  else .error .ShapeError

/-- Modelled from the spec: validation of a submitted external
representation on encode; a value not in the declared set fails with
ShapeError (§4.1).  The validating code is in the ORM layer, absent
from src/. -/
def validateGender (s : String) : Except DbError String :=
  if genderValues.contains s then .ok s else .error .ShapeError

/-- A row of the students table (src/models.py lines 30-86): surrogate
key id, plain fields, the gender column storing the external string,
and updated_at serving as the version_id_col token (lines 85-86),
modelled as a store-assigned natural number. -/
structure StudentRow where
  id : Nat
  name : String
  gender : String
  address : String
  score : Nat
  is_active : Bool
  version : Nat
  deriving DecidableEq, Repr

/-- A row of the emails table (src/models.py lines 89-103): composite
primary key (email, student_id), no surrogate id column. -/
structure EmailRow where
  email : String
  student_id : Nat
  deriving DecidableEq, Repr

/-- A row of the classes table (src/models.py lines 118-122). -/
structure ClazzRow where
  id : Nat
  name : String
  version : Nat
  deriving DecidableEq, Repr

/-- A row of the student_clazz table (src/models.py lines 125-144):
student_id is the sole primary-key column, class_id a plain foreign
key. -/
structure StudentClazzRow where
  student_id : Nat
  class_id : Nat
  deriving DecidableEq, Repr

/-- Modelled from the spec: the store state.  The clock models the
automatically advancing per-row version source (§6 storage-binding
interface (d)); every successful write stamps the written row with the
current clock and advances it. -/
structure DB where
  students : List StudentRow
  emails : List EmailRow
  clazzes : List ClazzRow
  studentClazz : List StudentClazzRow
  clock : Nat
  deriving DecidableEq, Repr

/-- The store invariant that the version source is fresh: every version
token already handed out is below the clock. -/
def clockFresh (db : DB) : Bool :=
  db.students.all (fun s => decide (s.version < db.clock)) &&
    db.clazzes.all (fun c => decide (c.version < db.clock))

/-- Does some student row match the conditional-write predicate
(primary key AND version), as in the single-row predicate of §4.3. -/
def studentAt (db : DB) (key v : Nat) : Bool :=
  db.students.any (fun s => s.id == key && s.version == v)

/-- A patch for the mutable student fields (§4.5 update); the gender
field carries the internal value and is re-encoded on apply. -/
structure StudentPatch where
  name : Option String
  gender : Option Gender
  address : Option String
  score : Option Nat
  is_active : Option Bool
  deriving DecidableEq, Repr

/-- The identity patch. -/
def StudentPatch.idPatch : StudentPatch := ⟨none, none, none, none, none⟩

/-- Modelled from the spec: applying a patch to a row stamps the
store-assigned new version; the enum field is re-encoded to its external
representation, never passed through raw (§4.5). -/
def applyPatch (s : StudentRow) (p : StudentPatch) (nv : Nat) : StudentRow :=
  { id := s.id
    name := p.name.getD s.name
    gender := (p.gender.map encodeGender).getD s.gender
    address := p.address.getD s.address
    score := p.score.getD s.score
    is_active := p.is_active.getD s.is_active
    version := nv }

/-- Modelled from the spec: the optimistic-concurrency update of §4.3,
realised in the repository by version_id_col = updated_at
(src/models.py lines 85-86) and absent as code from src/.  The write is
a single atomic conditional write on the predicate (key, version): when
no row matches, the operation fails with ConflictError and the state is
returned unchanged (zero rows affected); otherwise the matching row is
patched and stamped with the store clock, which then advances. -/
def updateStudent (db : DB) (key v : Nat) (p : StudentPatch) :
    DB × Except DbError Nat :=
  if studentAt db key v then
    ({ db with
        students := db.students.map (fun s =>
          if s.id == key && s.version == v then applyPatch s p db.clock else s)
        clock := db.clock + 1 },
      .ok db.clock)
  else
    (db, .error .ConflictError)

/-- The version token currently held by a reader of the row with the
given key (§4.3 read), i.e. the version of the first row with that id. -/
def currentVersion (db : DB) (key : Nat) : Option Nat :=
  (db.students.find? (fun s => s.id == key)).map (fun s => s.version)

/-- Modelled from the spec: the read-then-update round trip a caller
performs for each of its successive updates — read the current version,
then issue the conditional write with it. -/
def updateFresh (db : DB) (key : Nat) (p : StudentPatch) :
    DB × Except DbError Nat :=
  match currentVersion db key with
  | none => (db, .error .NotFoundError)
  | some v => updateStudent db key v p

/-- The version tokens observed after each update of a sequence of
read-then-update round trips on one key. -/
def versionsAfter (db : DB) (key : Nat) : List StudentPatch → List Nat
  | [] => []
  | p :: ps =>
    (currentVersion (updateFresh db key p).1 key).getD 0 ::
      versionsAfter (updateFresh db key p).1 key ps

/-- Did an update round trip succeed. -/
def isOkResult : Except DbError Nat → Bool
  | .ok _ => true
  | .error _ => false

/-- All updates of the sequence of round trips succeeded. -/
def runOk (db : DB) (key : Nat) : List StudentPatch → Bool
  | [] => true
  | p :: ps =>
    isOkResult (updateFresh db key p).2 && runOk (updateFresh db key p).1 key ps

/-- Modelled from the spec: delete of a Student (§4.5) — the §4.3
version check on the root row, then the §4.4 cascade plan executed
atomically.  The relationship graph comes from src/models.py: both
Email.student_id (lines 94-96) and StudentClazz.student_id (lines
136-138) are declared ondelete CASCADE, so the plan removes the Student
row together with every Email row and every StudentClazz row carrying
that student_id, in the one operation. -/
def deleteStudent (db : DB) (key v : Nat) : DB × Except DbError Unit :=
  if studentAt db key v then
    ({ db with
        students := db.students.filter (fun s => !(s.id == key))
        emails := db.emails.filter (fun e => !(e.student_id == key))
        studentClazz := db.studentClazz.filter (fun sc => !(sc.student_id == key))
        clock := db.clock + 1 },
      .ok ())
  else
    (db, .error .ConflictError)

/-- Does some clazz row match the conditional-write predicate. -/
def clazzAt (db : DB) (key v : Nat) : Bool :=
  db.clazzes.any (fun c => c.id == key && c.version == v)

/-- Modelled from the spec: delete of a Clazz (§4.4) — the version
check, then the referential action engine.  StudentClazz.class_id is
declared ondelete RESTRICT in src/models.py (lines 139-141): while any
StudentClazz row references the Clazz, the whole delete aborts with
ReferentialIntegrityError naming the blocking entity and key and no row
is removed. -/
def deleteClazz (db : DB) (key v : Nat) : DB × Except DbError Unit :=
  if clazzAt db key v then
    match db.studentClazz.find? (fun sc => sc.class_id == key) with
    | some sc =>
        (db, .error (.ReferentialIntegrityError "student_clazz" sc.student_id))
    | none =>
        ({ db with
            clazzes := db.clazzes.filter (fun c => !(c.id == key))
            clock := db.clock + 1 },
          .ok ())
  else
    (db, .error .ConflictError)

/-- Modelled from the spec: create of a Student (§4.5) — the gender is
submitted as the internal value and persisted through encodeGender,
i.e. as the external string representation selected by values_callable
(src/models.py lines 59-67); the initial version is assigned by the
store. -/
def insertStudent (db : DB) (key : Nat) (nm : String) (g : Gender)
    (addr : String) (sc : Nat) (act : Bool) : DB × Except DbError Nat :=
  if db.students.any (fun s => s.id == key) then
    (db, .error .UniquenessError)
  else
    ({ db with
        students := db.students ++ [⟨key, nm, encodeGender g, addr, sc, act, db.clock⟩]
        clock := db.clock + 1 },
      .ok db.clock)

/-- Does some email row carry exactly this (email, student_id) pair,
the composite primary key of src/models.py line 100. -/
def hasEmail (db : DB) (em : String) (sid : Nat) : Bool :=
  db.emails.any (fun e => e.email == em && e.student_id == sid)

/-- Modelled from the spec: create of an Email (§4.5) — uniqueness is
checked over the tuple (email, student_id), the composite primary key
declared in src/models.py line 100; there is no surrogate id column. -/
def insertEmail (db : DB) (em : String) (sid : Nat) :
    DB × Except DbError Unit :=
  if hasEmail db em sid then
    (db, .error .UniquenessError)
  else
    ({ db with emails := db.emails ++ [⟨em, sid⟩] }, .ok ())

/-- Does some student_clazz row carry this student_id, the sole
primary-key column of src/models.py lines 136-138. -/
def hasStudentClazz (db : DB) (sid : Nat) : Bool :=
  db.studentClazz.any (fun sc => sc.student_id == sid)

/-- Modelled from the spec: create of a StudentClazz (§4.5) — row
identity is the single primary-key column student_id (src/models.py
lines 136-138; class_id, lines 139-141, is a plain foreign key), so the
collision check ignores class_id entirely. -/
def insertStudentClazz (db : DB) (sid cid : Nat) :
    DB × Except DbError Unit :=
  if hasStudentClazz db sid then
    (db, .error .UniquenessError)
  else
    ({ db with studentClazz := db.studentClazz ++ [⟨sid, cid⟩] }, .ok ())

/-- An entity shape of the catalog (§4.1): name and field list. -/
structure EntityShape where
  name : String
  fields : List String
  deriving DecidableEq, Repr

/-- On-delete policy of a declared relation (§4.2). -/
inductive OnDelete where
  | CASCADE
  | RESTRICT
  deriving DecidableEq, Repr

/-- Cardinality of a declared relation (§4.2). -/
inductive Cardinality where
  | oneToOne
  | oneToMany
  deriving DecidableEq, Repr

/-- A forward relation declaration (§4.2): the source entity declares a
has-many / has-one towards the target, naming the owning-side foreign
key field that lives on the target. -/
structure RelDecl where
  source : String
  target : String
  fkField : String
  card : Cardinality
  policy : OnDelete
  deriving DecidableEq, Repr

/-- A derived back-reference (§4.2): the belongs-to direction computed
from a forward declaration, never separately stored. -/
structure BackRef where
  owner : String
  parent : String
  fkField : String
  deriving DecidableEq, Repr

/-- Modelled from the spec: deriving the belongs-to back-reference of a
declared has-many / has-one relation (§4.2). -/
def deriveBackRef (r : RelDecl) : BackRef :=
  ⟨r.target, r.source, r.fkField⟩

/-- Modelled from the spec: resolving a back-reference into the forward
direction again, to check both directions agree. -/
def forwardOf (b : BackRef) : String × String × String :=
  (b.parent, b.owner, b.fkField)

/-- Modelled from the spec: a declaration is consistent when its source
entity exists and its target entity exists and carries the named
foreign key field (§4.2: B must have a matching foreign key field). -/
def declConsistent (cat : List EntityShape) (r : RelDecl) : Bool :=
  cat.any (fun e => e.name == r.source) &&
    cat.any (fun e => e.name == r.target && e.fields.contains r.fkField)

/-- A built relationship graph: the validated declarations together
with the computed back-references. -/
structure RelGraph where
  rels : List RelDecl
  backRefs : List BackRef
  deriving DecidableEq, Repr

/-- Modelled from the spec: the startup-time registration pass (§4.2,
§6) building the relationship graph.  An inconsistent declaration is a
configuration error raised here, before any CRUD operation — CRUD runs
only against a successfully built graph. -/
def buildGraph (cat : List EntityShape) (rels : List RelDecl) :
    Except DbError RelGraph :=
  if rels.all (declConsistent cat) then
    .ok ⟨rels, rels.map deriveBackRef⟩
  else
    .error .ShapeError

/-- The entity catalog of src/models.py: each table with its column
list. -/
def repoCatalog : List EntityShape :=
  [⟨"students", ["id", "name", "gender", "address", "score", "is_active", "updated_at"]⟩,
   ⟨"emails", ["email", "student_id"]⟩,
   ⟨"teachers", ["id", "name"]⟩,
   ⟨"classes", ["id", "name"]⟩,
   ⟨"student_clazz", ["student_id", "class_id"]⟩,
   ⟨"teacher_clazz", ["teacher_id", "class_id"]⟩]

/-- The forward relation declarations of src/models.py: Student
has-many Email (FK emails.student_id, CASCADE, lines 75 and 94-96),
Student has-one StudentClazz (FK student_clazz.student_id, CASCADE,
lines 78 and 136-138), Clazz has-one StudentClazz (FK
student_clazz.class_id, RESTRICT, lines 139-141 and 144), Teacher
has-many TeacherClazz (FK teacher_clazz.teacher_id, RESTRICT, lines
150-152), Clazz has-many TeacherClazz (FK teacher_clazz.class_id,
CASCADE, lines 153-155). -/
def repoRels : List RelDecl :=
  [⟨"students", "emails", "student_id", .oneToMany, .CASCADE⟩,
   ⟨"students", "student_clazz", "student_id", .oneToOne, .CASCADE⟩,
   ⟨"classes", "student_clazz", "class_id", .oneToOne, .RESTRICT⟩,
   ⟨"teachers", "teacher_clazz", "teacher_id", .oneToMany, .RESTRICT⟩,
   ⟨"classes", "teacher_clazz", "class_id", .oneToMany, .CASCADE⟩]

/-- Modelled from the spec: the core delete path of
src/01_base_crud.py test_delete (lines 93-103) — a direct DELETE
statement keyed on id, with the storage engine applying the declared
ON DELETE CASCADE actions of src/models.py to the dependent emails and
student_clazz rows.  It succeeds whether or not the row exists. -/
def deleteStudentCore (db : DB) (key : Nat) : DB × Except DbError Unit :=
  ({ db with
      students := db.students.filter (fun s => !(s.id == key))
      emails := db.emails.filter (fun e => !(e.student_id == key))
      studentClazz := db.studentClazz.filter (fun sc => !(sc.student_id == key))
      clock := db.clock + 1 },
    .ok ())

/-- Modelled from the spec: the ORM unit-of-work delete path of
src/01_base_crud.py test_delete_with_orm (lines 106-118), marked xfail
in the source.  The unit of work, with no cascade configured on the
relationships, tries to detach each loaded dependent row by nulling its
foreign key; for both emails.student_id and student_clazz.student_id
that column is part of the dependent row's primary key and cannot be
nulled, so the flush fails whenever a dependent row exists, leaving the
state unchanged. -/
def deleteStudentOrm (db : DB) (key : Nat) : DB × Except DbError Unit :=
  if db.students.any (fun s => s.id == key) then
    if db.emails.any (fun e => e.student_id == key) ||
        db.studentClazz.any (fun sc => sc.student_id == key) then
      (db, .error (.ReferentialIntegrityError "students" key))
    else
      ({ db with
          students := db.students.filter (fun s => !(s.id == key))
          clock := db.clock + 1 },
        .ok ())
  else
    (db, .error .NotFoundError)

@[simp] theorem applyPatch_id (s : StudentRow) (p : StudentPatch) (nv : Nat) :
    (applyPatch s p nv).id = s.id := rfl

@[simp] theorem applyPatch_version (s : StudentRow) (p : StudentPatch) (nv : Nat) :
    (applyPatch s p nv).version = nv := rfl

theorem studentAt_iff (db : DB) (key v : Nat) :
    studentAt db key v = true ↔
      ∃ s ∈ db.students, s.id = key ∧ s.version = v := by
  simp [studentAt]

theorem clockFresh_iff (db : DB) :
    clockFresh db = true ↔
      (∀ s ∈ db.students, s.version < db.clock) ∧
        (∀ c ∈ db.clazzes, c.version < db.clock) := by
  simp [clockFresh]

theorem updateStudent_no_match (db : DB) (key v : Nat) (p : StudentPatch)
    (h : studentAt db key v = false) :
    updateStudent db key v p = (db, .error .ConflictError) := by
  simp [updateStudent, h]

theorem updateStudent_ok (db : DB) (key v : Nat) (p : StudentPatch)
    (h : studentAt db key v = true) :
    updateStudent db key v p =
      ({ db with
          students := db.students.map (fun s =>
            if s.id == key && s.version == v then applyPatch s p db.clock else s)
          clock := db.clock + 1 },
        .ok db.clock) := by
  simp [updateStudent, h]

theorem studentAt_after_update (db : DB) (key v : Nat) (p : StudentPatch)
    (hf : clockFresh db = true) (h : studentAt db key v = true) :
    studentAt (updateStudent db key v p).1 key v = false := by
  obtain ⟨s0, hs0, hid, hv⟩ := (studentAt_iff db key v).1 h
  have hvlt : v < db.clock := hv ▸ ((clockFresh_iff db).1 hf).1 s0 hs0
  rw [updateStudent_ok db key v p h]
  rw [studentAt]
  simp only [List.any_map]
  rw [List.any_eq_false]
  intro s hs
  by_cases hc : (s.id == key && s.version == v) = true
  · simp only [Function.comp, hc, if_true, applyPatch_id, applyPatch_version]
    have : (db.clock == v) = false := by
      simp [Nat.ne_of_gt hvlt]
    simp [this]
  · simp only [Function.comp, if_neg hc]
    simp only [Bool.not_eq_true] at hc
    simp [hc]

theorem deleteStudent_no_match (db : DB) (key v : Nat)
    (h : studentAt db key v = false) :
    deleteStudent db key v = (db, .error .ConflictError) := by
  simp [deleteStudent, h]

/-- C1: an update or a delete whose held version no longer matches any
row — the row was deleted or modified since it was read — fails with
ConflictError and affects zero rows (the state is returned unchanged);
of two racing updates to the same key starting from the same held
version, the first succeeds and the second fails with ConflictError,
leaving the state the first produced, and a delete still holding that
stale version fails with ConflictError the same way. -/
theorem update_conflict_and_race (db : DB) (key v : Nat)
    (hf : clockFresh db = true) :
    (studentAt db key v = false →
      (∀ p, updateStudent db key v p = (db, .error DbError.ConflictError)) ∧
        deleteStudent db key v = (db, .error DbError.ConflictError)) ∧
    (studentAt db key v = true →
      ∀ p q, (updateStudent db key v p).2 = .ok db.clock ∧
        updateStudent (updateStudent db key v p).1 key v q =
          ((updateStudent db key v p).1, .error DbError.ConflictError) ∧
        deleteStudent (updateStudent db key v p).1 key v =
          ((updateStudent db key v p).1, .error DbError.ConflictError)) := by
  refine ⟨fun h =>
      ⟨fun p => updateStudent_no_match db key v p h, deleteStudent_no_match db key v h⟩,
    fun h p q => ⟨?_, ?_, ?_⟩⟩
  · rw [updateStudent_ok db key v p h]
  · exact updateStudent_no_match _ key v q (studentAt_after_update db key v p hf h)
  · exact deleteStudent_no_match _ key v (studentAt_after_update db key v p hf h)

/-- A one-student store used to witness the concurrency claims. -/
def dbStudentOne : DB :=
  { students := [⟨1, "Taro", "male", "Tokyo", 80, true, 0⟩]
    emails := []
    clazzes := []
    studentClazz := []
    clock := 1 }

theorem update_conflict_and_race_witness :
    clockFresh dbStudentOne = true ∧
    ((∀ p, updateStudent dbStudentOne 1 5 p =
        (dbStudentOne, .error DbError.ConflictError)) ∧
      deleteStudent dbStudentOne 1 5 = (dbStudentOne, .error DbError.ConflictError)) ∧
    ((updateStudent dbStudentOne 1 0 StudentPatch.idPatch).2 = .ok dbStudentOne.clock ∧
      updateStudent (updateStudent dbStudentOne 1 0 StudentPatch.idPatch).1 1 0
          StudentPatch.idPatch =
        ((updateStudent dbStudentOne 1 0 StudentPatch.idPatch).1,
          .error DbError.ConflictError) ∧
      deleteStudent (updateStudent dbStudentOne 1 0 StudentPatch.idPatch).1 1 0 =
        ((updateStudent dbStudentOne 1 0 StudentPatch.idPatch).1,
          .error DbError.ConflictError)) :=
  ⟨by decide,
    (update_conflict_and_race dbStudentOne 1 5 (by decide)).1 (by decide),
    (update_conflict_and_race dbStudentOne 1 0 (by decide)).2 (by decide)
      StudentPatch.idPatch StudentPatch.idPatch⟩

theorem updateFresh_step (db : DB) (key v : Nat) (p : StudentPatch)
    (hf : clockFresh db = true) (hv : currentVersion db key = some v) :
    (updateFresh db key p).2 = .ok db.clock ∧
      currentVersion (updateFresh db key p).1 key = some db.clock ∧
      clockFresh (updateFresh db key p).1 = true ∧
      (updateFresh db key p).1.clock = db.clock + 1 ∧
      v < db.clock := by
  obtain ⟨s0, hfind, hver⟩ := Option.map_eq_some'.1 hv
  have hid : s0.id = key := by
    have := List.find?_some hfind
    simpa using this
  have hmem : s0 ∈ db.students := List.mem_of_find?_eq_some hfind
  have hAt : studentAt db key v = true :=
    (studentAt_iff db key v).2 ⟨s0, hmem, hid, hver⟩
  have hvlt : v < db.clock := hver ▸ ((clockFresh_iff db).1 hf).1 s0 hmem
  have hfr : updateFresh db key p = updateStudent db key v p := by
    simp [updateFresh, hv]
  rw [hfr, updateStudent_ok db key v p hAt]
  refine ⟨rfl, ?_, ?_, rfl, hvlt⟩
  · show currentVersion
        { db with
            students := db.students.map (fun s =>
              if s.id == key && s.version == v then applyPatch s p db.clock else s)
            clock := db.clock + 1 } key = some db.clock
    rw [currentVersion]
    simp only [List.find?_map]
    have hpf : ((fun s : StudentRow => s.id == key) ∘
        (fun s => if s.id == key && s.version == v then applyPatch s p db.clock else s)) =
        (fun s : StudentRow => s.id == key) := by
      funext s
      by_cases hc : (s.id == key && s.version == v) = true
      · simp [Function.comp, hc]
      · simp [Function.comp, hc]
    rw [hpf, hfind]
    simp [hid, hver]
  · refine (clockFresh_iff _).2 ⟨?_, ?_⟩
    · intro x hx
      simp only [List.mem_map] at hx
      obtain ⟨s, hs, rfl⟩ := hx
      by_cases hc : (s.id == key && s.version == v) = true
      · simp [hc, Nat.lt_succ_self]
      · simp only [if_neg hc]
        exact Nat.lt_succ_of_lt (((clockFresh_iff db).1 hf).1 s hs)
    · intro c hc2
      exact Nat.lt_succ_of_lt (((clockFresh_iff db).1 hf).2 c hc2)

theorem runUpdates_chain (ps : List StudentPatch) : ∀ (db : DB) (key v : Nat),
    clockFresh db = true → currentVersion db key = some v →
    runOk db key ps = true ∧
      List.Chain (fun a b => a < b) v (versionsAfter db key ps) := by
  induction ps with
  | nil =>
    intro db key v hf hv
    exact ⟨rfl, List.Chain.nil⟩
  | cons p ps ih =>
    intro db key v hf hv
    obtain ⟨hok, hcur, hf1, hclk, hvlt⟩ := updateFresh_step db key v p hf hv
    obtain ⟨hrun, hchain⟩ := ih (updateFresh db key p).1 key db.clock hf1 hcur
    constructor
    · rw [runOk, hok, hrun]
      rfl
    · rw [versionsAfter, hcur]
      exact List.Chain.cons hvlt hchain

/-- C2: along any sequence of successful read-then-update round trips
on one row, every round trip indeed succeeds, and the version token
observed after each update differs from the original token and from
every intermediate token (the tokens are pairwise distinct because the
store clock makes them strictly increase). -/
theorem version_tokens_distinct (ps : List StudentPatch) (db : DB) (key v : Nat)
    (hf : clockFresh db = true) (hv : currentVersion db key = some v) :
    runOk db key ps = true ∧
      List.Pairwise (fun a b => a ≠ b) (v :: versionsAfter db key ps) := by
  obtain ⟨hrun, hchain⟩ := runUpdates_chain ps db key v hf hv
  refine ⟨hrun, ?_⟩
  have hp : List.Pairwise (fun a b : Nat => a < b) (v :: versionsAfter db key ps) :=
    List.chain_iff_pairwise.1 hchain
  exact hp.imp Nat.ne_of_lt

theorem version_tokens_distinct_witness :
    clockFresh dbStudentOne = true ∧
      currentVersion dbStudentOne 1 = some 0 ∧
      (runOk dbStudentOne 1 [StudentPatch.idPatch, StudentPatch.idPatch] = true ∧
        List.Pairwise (fun a b => a ≠ b)
          (0 :: versionsAfter dbStudentOne 1 [StudentPatch.idPatch, StudentPatch.idPatch])) :=
  ⟨by decide, by decide,
    version_tokens_distinct [StudentPatch.idPatch, StudentPatch.idPatch]
      dbStudentOne 1 0 (by decide) (by decide)⟩

/-- C3: a successful delete of a Student removes, in the one atomic
operation, the Student row, every Email row carrying its student_id and
every StudentClazz row carrying its student_id (both foreign keys are
declared ondelete CASCADE in src/models.py); no dependent row survives,
and rows of other students are untouched. -/
theorem student_delete_cascades (db : DB) (key v : Nat)
    (h : studentAt db key v = true) :
    (deleteStudent db key v).2 = .ok () ∧
      (∀ s, s ∈ (deleteStudent db key v).1.students ↔
        (s ∈ db.students ∧ s.id ≠ key)) ∧
      (∀ e, e ∈ (deleteStudent db key v).1.emails ↔
        (e ∈ db.emails ∧ e.student_id ≠ key)) ∧
      (∀ sc, sc ∈ (deleteStudent db key v).1.studentClazz ↔
        (sc ∈ db.studentClazz ∧ sc.student_id ≠ key)) := by
  refine ⟨?_, ?_, ?_, ?_⟩ <;>
    simp [deleteStudent, h, List.mem_filter]

/-- A store holding one student with two emails and a class
registration, used to witness the cascade claims. -/
def dbCascade : DB :=
  { students := [⟨1, "Taro", "male", "Tokyo", 80, true, 0⟩]
    emails := [⟨"a@x.com", 1⟩, ⟨"b@x.com", 1⟩]
    clazzes := [⟨7, "1-A", 0⟩]
    studentClazz := [⟨1, 7⟩]
    clock := 1 }

theorem student_delete_cascades_witness :
    studentAt dbCascade 1 0 = true ∧
      ((deleteStudent dbCascade 1 0).2 = .ok () ∧
        (∀ e, e ∈ (deleteStudent dbCascade 1 0).1.emails ↔
          (e ∈ dbCascade.emails ∧ e.student_id ≠ 1)) ∧
        (∀ sc, sc ∈ (deleteStudent dbCascade 1 0).1.studentClazz ↔
          (sc ∈ dbCascade.studentClazz ∧ sc.student_id ≠ 1))) :=
  ⟨by decide,
    ⟨(student_delete_cascades dbCascade 1 0 (by decide)).1,
      (student_delete_cascades dbCascade 1 0 (by decide)).2.2.1,
      (student_delete_cascades dbCascade 1 0 (by decide)).2.2.2⟩⟩

/-- C4: deleting a Clazz still referenced by some StudentClazz row
(whose class_id foreign key is declared ondelete RESTRICT in
src/models.py) fails with ReferentialIntegrityError naming the blocking
entity and the key of a blocking row, and leaves the whole store
unchanged — no partial deletion. -/
theorem clazz_delete_restricted (db : DB) (key v : Nat)
    (sc : StudentClazzRow) (hc : clazzAt db key v = true)
    (hm : sc ∈ db.studentClazz) (hk : sc.class_id = key) :
    ∃ b, deleteClazz db key v =
        (db, .error (.ReferentialIntegrityError "student_clazz" b)) ∧
      ∃ sc2 ∈ db.studentClazz, sc2.class_id = key ∧ sc2.student_id = b := by
  have hsome : (db.studentClazz.find? (fun x => x.class_id == key)).isSome := by
    rw [List.find?_isSome]
    exact ⟨sc, hm, by simp [hk]⟩
  obtain ⟨sc0, hfind⟩ := Option.isSome_iff_exists.1 hsome
  have hk0 : sc0.class_id = key := by
    have := List.find?_some hfind
    simpa using this
  have hm0 : sc0 ∈ db.studentClazz := List.mem_of_find?_eq_some hfind
  refine ⟨sc0.student_id, ?_, sc0, hm0, hk0, rfl⟩
  simp [deleteClazz, hc, hfind]

/-- A store holding a class referenced by one registration, used to
witness the RESTRICT claims. -/
def dbRestrict : DB :=
  { students := [⟨1, "Taro", "male", "Tokyo", 80, true, 0⟩]
    emails := []
    clazzes := [⟨7, "1-A", 0⟩]
    studentClazz := [⟨1, 7⟩]
    clock := 1 }

theorem clazz_delete_restricted_witness :
    clazzAt dbRestrict 7 0 = true ∧
      (⟨1, 7⟩ : StudentClazzRow) ∈ dbRestrict.studentClazz ∧
      (∃ b, deleteClazz dbRestrict 7 0 =
          (dbRestrict, .error (.ReferentialIntegrityError "student_clazz" b)) ∧
        ∃ sc2 ∈ dbRestrict.studentClazz, sc2.class_id = 7 ∧ sc2.student_id = b) :=
  ⟨by decide, by decide,
    clazz_delete_restricted dbRestrict 7 0 ⟨1, 7⟩ (by decide) (by decide) rfl⟩

/-- C5: every write of the gender field persists the external string
representation selected by values_callable — on create the stored
column equals Gender.value of the submitted member, on update the
patched value is re-encoded the same way; the stored value lies in the
declared external set and is never the internal member name nor the
1/2 ordinal the caller of test_insert supplies; and any submitted or
stored representation outside the declared mapping fails with
ShapeError instead of a default being substituted. -/
theorem gender_persisted_externally :
    (∀ (db : DB) (key : Nat) (nm : String) (g : Gender) (addr : String)
        (sc : Nat) (act : Bool),
      db.students.any (fun s => s.id == key) = false →
      (insertStudent db key nm g addr sc act).2 = .ok db.clock ∧
        ∃ s ∈ (insertStudent db key nm g addr sc act).1.students,
          s.id = key ∧ s.gender = Gender.value g ∧ s.gender ∈ genderValues) ∧
    (∀ (s : StudentRow) (p : StudentPatch) (nv : Nat) (g : Gender),
      p.gender = some g → (applyPatch s p nv).gender = Gender.value g) ∧
    (∀ g : Gender, Gender.value g ∈ genderValues ∧
      Gender.value g ≠ Gender.memberName g ∧
      Gender.value g ≠ "1" ∧ Gender.value g ≠ "2") ∧
    (∀ s : String, s ∉ genderValues →
      validateGender s = .error DbError.ShapeError ∧
        decodeGender s = .error DbError.ShapeError) := by
  refine ⟨?_, ?_, ?_, ?_⟩
  · intro db key nm g addr sc act h
    refine ⟨by simp [insertStudent, h], ?_⟩
    refine ⟨⟨key, nm, encodeGender g, addr, sc, act, db.clock⟩, ?_, rfl, rfl, ?_⟩
    · simp [insertStudent, h]
    · cases g <;> simp [encodeGender, Gender.value, genderValues]
  · intro s p nv g hg
    simp [applyPatch, hg, encodeGender]
  · intro g
    cases g <;> simp [Gender.value, Gender.memberName, genderValues]
  · intro s hs
    simp only [genderValues, List.mem_cons, List.not_mem_nil, or_false] at hs
    push_neg at hs
    constructor
    · simp [validateGender, genderValues, hs.1, hs.2]
    · simp [decodeGender, hs.1, hs.2]

theorem gender_persisted_externally_witness :
    dbRestrict.students.any (fun s => s.id == 2) = false ∧
      ((insertStudent dbRestrict 2 "Hanako" Gender.FEMALE "Osaka" 70 true).2 =
          .ok dbRestrict.clock ∧
        ∃ s ∈ (insertStudent dbRestrict 2 "Hanako" Gender.FEMALE "Osaka" 70 true).1.students,
          s.id = 2 ∧ s.gender = Gender.value Gender.FEMALE ∧ s.gender ∈ genderValues) ∧
      ("FEMALE" ∉ genderValues ∧
        (validateGender "FEMALE" = .error DbError.ShapeError ∧
          decodeGender "FEMALE" = .error DbError.ShapeError)) :=
  ⟨by decide,
    gender_persisted_externally.1 dbRestrict 2 "Hanako" Gender.FEMALE "Osaka" 70 true
      (by decide),
    by decide,
    gender_persisted_externally.2.2.2 "FEMALE" (by decide)⟩

/-- C6: a Student created with gender encoded from the internal MALE
member is stored as the external representation "male" and decodes back
to the member originally submitted (and so does every member); the
internal member name "MALE" is not a declared external representation,
so submitting or decoding it fails with ShapeError. -/
theorem gender_roundtrip :
    (∀ (db : DB) (key : Nat) (nm addr : String) (sc : Nat) (act : Bool),
      db.students.any (fun s => s.id == key) = false →
      ∃ s ∈ (insertStudent db key nm Gender.MALE addr sc act).1.students,
        s.id = key ∧ s.gender = "male" ∧
          decodeGender s.gender = .ok Gender.MALE) ∧
    (∀ g : Gender, decodeGender (encodeGender g) = .ok g) ∧
    decodeGender "MALE" = .error DbError.ShapeError ∧
    validateGender "MALE" = .error DbError.ShapeError := by
  refine ⟨?_, ?_, rfl, rfl⟩
  · intro db key nm addr sc act h
    refine ⟨⟨key, nm, encodeGender Gender.MALE, addr, sc, act, db.clock⟩, ?_, rfl, rfl, ?_⟩
    · simp [insertStudent, h]
    · rfl
  · intro g
    cases g <;> rfl

theorem gender_roundtrip_witness :
    dbRestrict.students.any (fun s => s.id == 2) = false ∧
      ∃ s ∈ (insertStudent dbRestrict 2 "Taro" Gender.MALE "Tokyo" 80 true).1.students,
        s.id = 2 ∧ s.gender = "male" ∧ decodeGender s.gender = .ok Gender.MALE :=
  ⟨by decide,
    gender_roundtrip.1 dbRestrict 2 "Taro" "Tokyo" 80 true (by decide)⟩

theorem insertEmail_dup (db : DB) (em : String) (sid : Nat)
    (h : hasEmail db em sid = true) :
    insertEmail db em sid = (db, .error DbError.UniquenessError) := by
  simp [insertEmail, h]

theorem insertEmail_new (db : DB) (em : String) (sid : Nat)
    (h : hasEmail db em sid = false) :
    insertEmail db em sid =
      ({ db with emails := db.emails ++ [⟨em, sid⟩] }, .ok ()) := by
  simp [insertEmail, h]

theorem hasEmail_append_self (db : DB) (em : String) (sid : Nat) :
    hasEmail { db with emails := db.emails ++ [⟨em, sid⟩] } em sid = true := by
  simp [hasEmail]

theorem hasEmail_append_other (db : DB) (em : String) (sid sid2 : Nat)
    (h2 : hasEmail db em sid2 = false) (hne : sid ≠ sid2) :
    hasEmail { db with emails := db.emails ++ [⟨em, sid⟩] } em sid2 = false := by
  rw [hasEmail] at h2
  show (db.emails ++ [(⟨em, sid⟩ : EmailRow)]).any
      (fun e => e.email == em && e.student_id == sid2) = false
  rw [List.any_append, h2]
  simp [hne]

theorem insertStudentClazz_dup (db : DB) (sid cid : Nat)
    (h : hasStudentClazz db sid = true) :
    insertStudentClazz db sid cid = (db, .error DbError.UniquenessError) := by
  simp [insertStudentClazz, h]

theorem insertStudentClazz_new (db : DB) (sid cid : Nat)
    (h : hasStudentClazz db sid = false) :
    insertStudentClazz db sid cid =
      ({ db with studentClazz := db.studentClazz ++ [⟨sid, cid⟩] }, .ok ()) := by
  simp [insertStudentClazz, h]

theorem hasStudentClazz_append_self (db : DB) (sid cid : Nat) :
    hasStudentClazz { db with studentClazz := db.studentClazz ++ [⟨sid, cid⟩] } sid = true := by
  simp [hasStudentClazz]

/-- C7: Email uniqueness is defined over the composite key
(email, student_id) declared in src/models.py line 100 and the row has
no surrogate id — its identity is exactly that tuple; inserting a
second Email with the same pair fails with UniquenessError and changes
nothing, while inserting the same email under a different student_id
succeeds. -/
theorem email_composite_uniqueness (db : DB) (em : String) (sid1 sid2 : Nat)
    (h1 : hasEmail db em sid1 = false) (h2 : hasEmail db em sid2 = false)
    (hne : sid1 ≠ sid2) :
    (insertEmail db em sid1).2 = .ok () ∧
      insertEmail (insertEmail db em sid1).1 em sid1 =
        ((insertEmail db em sid1).1, .error DbError.UniquenessError) ∧
      (insertEmail (insertEmail db em sid1).1 em sid2).2 = .ok () ∧
      (∀ e1 e2 : EmailRow,
        e1 = e2 ↔ (e1.email = e2.email ∧ e1.student_id = e2.student_id)) := by
  refine ⟨by rw [insertEmail_new db em sid1 h1], ?_, ?_, ?_⟩
  · rw [insertEmail_new db em sid1 h1]
    exact insertEmail_dup _ em sid1 (hasEmail_append_self db em sid1)
  · rw [insertEmail_new db em sid1 h1]
    rw [insertEmail_new _ em sid2 (hasEmail_append_other db em sid1 sid2 h2 hne)]
  · intro e1 e2
    cases e1
    cases e2
    simp [EmailRow.mk.injEq]

theorem email_composite_uniqueness_witness :
    hasEmail dbRestrict "a@x.com" 1 = false ∧
      hasEmail dbRestrict "a@x.com" 2 = false ∧
      ((insertEmail dbRestrict "a@x.com" 1).2 = .ok () ∧
        insertEmail (insertEmail dbRestrict "a@x.com" 1).1 "a@x.com" 1 =
          ((insertEmail dbRestrict "a@x.com" 1).1, .error DbError.UniquenessError) ∧
        (insertEmail (insertEmail dbRestrict "a@x.com" 1).1 "a@x.com" 2).2 = .ok ()) :=
  ⟨by decide, by decide,
    (email_composite_uniqueness dbRestrict "a@x.com" 1 2 (by decide) (by decide)
        (by decide)).1,
    (email_composite_uniqueness dbRestrict "a@x.com" 1 2 (by decide) (by decide)
        (by decide)).2.1,
    (email_composite_uniqueness dbRestrict "a@x.com" 1 2 (by decide) (by decide)
        (by decide)).2.2.1⟩

/-- C9: StudentClazz row identity is the single primary-key column
student_id (src/models.py lines 136-141; class_id is a plain foreign
key), so a student has at most one registration: after inserting a row
for a student, inserting a second row for the same student with a
different class_id is a key collision failing with UniquenessError and
changing nothing, and whether an insert collides does not depend on the
class_id supplied. -/
theorem studentclazz_key_is_student_id (db : DB) (sid c1 c2 : Nat)
    (h : hasStudentClazz db sid = false) :
    (insertStudentClazz db sid c1).2 = .ok () ∧
      insertStudentClazz (insertStudentClazz db sid c1).1 sid c2 =
        ((insertStudentClazz db sid c1).1, .error DbError.UniquenessError) ∧
      (∀ cid1 cid2 : Nat,
        (insertStudentClazz db sid cid1).2 = (insertStudentClazz db sid cid2).2) := by
  refine ⟨by rw [insertStudentClazz_new db sid c1 h], ?_, ?_⟩
  · rw [insertStudentClazz_new db sid c1 h]
    exact insertStudentClazz_dup _ sid c2 (hasStudentClazz_append_self db sid c1)
  · intro cid1 cid2
    by_cases hg : hasStudentClazz db sid = true
    · rw [insertStudentClazz_dup db sid cid1 hg, insertStudentClazz_dup db sid cid2 hg]
    · simp only [Bool.not_eq_true] at hg
      rw [insertStudentClazz_new db sid cid1 hg, insertStudentClazz_new db sid cid2 hg]

theorem studentclazz_key_is_student_id_witness :
    hasStudentClazz dbRestrict 2 = false ∧
      ((insertStudentClazz dbRestrict 2 7).2 = .ok () ∧
        insertStudentClazz (insertStudentClazz dbRestrict 2 7).1 2 9 =
          ((insertStudentClazz dbRestrict 2 7).1, .error DbError.UniquenessError)) :=
  ⟨by decide,
    (studentclazz_key_is_student_id dbRestrict 2 7 9 (by decide)).1,
    (studentclazz_key_is_student_id dbRestrict 2 7 9 (by decide)).2.1⟩

/-- C8: building the relationship graph derives every back-reference
from its forward declaration — resolving the derived belongs-to back to
the forward direction returns exactly the declared (source, target,
foreign key) triple, so the two directions always agree — while a
declaration set containing any inconsistent pair (its target entity
missing or lacking the named foreign key field) makes the startup-time
build fail, so no graph exists for CRUD to run against and the error
can never surface at use time; the declarations of src/models.py build
successfully. -/
theorem backrefs_derived_consistently :
    (∀ (cat : List EntityShape) (rels : List RelDecl) (g : RelGraph),
      buildGraph cat rels = .ok g →
      ∀ r ∈ g.rels, deriveBackRef r ∈ g.backRefs ∧
        forwardOf (deriveBackRef r) = (r.source, r.target, r.fkField) ∧
        declConsistent cat r = true) ∧
    (∀ (cat : List EntityShape) (rels : List RelDecl),
      (∃ r ∈ rels, declConsistent cat r = false) →
      buildGraph cat rels = .error DbError.ShapeError) ∧
    buildGraph repoCatalog repoRels = .ok ⟨repoRels, repoRels.map deriveBackRef⟩ := by
  refine ⟨?_, ?_, ?_⟩
  · intro cat rels g hb r hr
    by_cases hall : rels.all (declConsistent cat) = true
    · rw [buildGraph, if_pos hall] at hb
      cases hb
      refine ⟨List.mem_map_of_mem deriveBackRef hr, rfl, ?_⟩
      exact List.all_eq_true.1 hall r hr
    · rw [buildGraph, if_neg hall] at hb
      cases hb
  · intro cat rels hex
    obtain ⟨r, hr, hrc⟩ := hex
    have hall : rels.all (declConsistent cat) = false := by
      rw [List.all_eq_false]
      exact ⟨r, hr, by simp [hrc]⟩
    rw [buildGraph, hall]
    rfl
  · rfl

theorem backrefs_derived_consistently_witness :
    buildGraph repoCatalog repoRels =
        .ok ⟨repoRels, repoRels.map deriveBackRef⟩ ∧
      (∀ r ∈ (⟨repoRels, repoRels.map deriveBackRef⟩ : RelGraph).rels,
        deriveBackRef r ∈ (⟨repoRels, repoRels.map deriveBackRef⟩ : RelGraph).backRefs ∧
          forwardOf (deriveBackRef r) = (r.source, r.target, r.fkField) ∧
          declConsistent repoCatalog r = true) ∧
      ((∃ r ∈ [(⟨"students", "nowhere", "student_id", Cardinality.oneToMany,
            OnDelete.CASCADE⟩ : RelDecl)], declConsistent repoCatalog r = false) ∧
        buildGraph repoCatalog
            [⟨"students", "nowhere", "student_id", .oneToMany, .CASCADE⟩] =
          .error DbError.ShapeError) :=
  ⟨rfl,
    backrefs_derived_consistently.1 repoCatalog repoRels
      ⟨repoRels, repoRels.map deriveBackRef⟩ rfl,
    ⟨⟨⟨"students", "nowhere", "student_id", .oneToMany, .CASCADE⟩,
        by decide, by decide⟩,
      backrefs_derived_consistently.2.1 repoCatalog
        [⟨"students", "nowhere", "student_id", .oneToMany, .CASCADE⟩]
        ⟨⟨"students", "nowhere", "student_id", .oneToMany, .CASCADE⟩,
          by decide, by decide⟩⟩⟩

/-- C10: the two delete paths of src/01_base_crud.py are not
equivalent: on a store where the student exists and some dependent row
(an Email or a StudentClazz) references it, the direct DELETE keyed on
id (test_delete) succeeds and removes the student, while the ORM
unit-of-work path (test_delete_with_orm, marked xfail in the source)
fails and leaves the store unchanged. -/
theorem delete_paths_not_equivalent (db : DB) (key : Nat)
    (hs : db.students.any (fun s => s.id == key) = true)
    (hdep : (db.emails.any (fun e => e.student_id == key) ||
      db.studentClazz.any (fun sc => sc.student_id == key)) = true) :
    (deleteStudentCore db key).2 = .ok () ∧
      (∀ s ∈ (deleteStudentCore db key).1.students, s.id ≠ key) ∧
      deleteStudentOrm db key =
        (db, .error (.ReferentialIntegrityError "students" key)) ∧
      deleteStudentCore db key ≠ deleteStudentOrm db key := by
  have horm : deleteStudentOrm db key =
      (db, .error (.ReferentialIntegrityError "students" key)) := by
    rw [deleteStudentOrm, if_pos hs, if_pos hdep]
  refine ⟨rfl, ?_, horm, ?_⟩
  · intro s hsm
    have : s ∈ db.students.filter (fun s => !(s.id == key)) := hsm
    simp only [List.mem_filter, Bool.not_eq_eq_eq_not, Bool.not_true,
      beq_eq_false_iff_ne, ne_eq] at this
    exact this.2
  · intro hcontra
    have h2 : (deleteStudentCore db key).2 = (deleteStudentOrm db key).2 := by
      rw [hcontra]
    rw [horm] at h2
    exact Except.noConfusion h2

/-- A store with a student and one dependent email, used to witness the
divergence of the two delete paths. -/
def dbOrmDelete : DB :=
  { students := [⟨2, "Jiro", "male", "Kyoto", 60, true, 0⟩]
    emails := [⟨"j@x.com", 2⟩]
    clazzes := []
    studentClazz := []
    clock := 1 }

theorem delete_paths_not_equivalent_witness :
    dbOrmDelete.students.any (fun s => s.id == 2) = true ∧
      (dbOrmDelete.emails.any (fun e => e.student_id == 2) ||
        dbOrmDelete.studentClazz.any (fun sc => sc.student_id == 2)) = true ∧
      ((deleteStudentCore dbOrmDelete 2).2 = .ok () ∧
        deleteStudentOrm dbOrmDelete 2 =
          (dbOrmDelete, .error (.ReferentialIntegrityError "students" 2)) ∧
        deleteStudentCore dbOrmDelete 2 ≠ deleteStudentOrm dbOrmDelete 2) :=
  ⟨by decide, by decide,
    (delete_paths_not_equivalent dbOrmDelete 2 (by decide) (by decide)).1,
    (delete_paths_not_equivalent dbOrmDelete 2 (by decide) (by decide)).2.2.1,
    (delete_paths_not_equivalent dbOrmDelete 2 (by decide) (by decide)).2.2.2⟩

end SqlaLearning
